import Mathlib

/-!
Shallow embedding of the resource bin-packing priority scorers from
`pkg/scheduler/algorithm/priorities` (the generic `ResourceBinPacking`
variant and the `ScarceResourceBinPacking` variant), together with the
shared request-aggregation helpers, and proofs of the specified
properties.

Go `int`/`int64` values are modelled as `Int`.  A Go runtime panic
(integer division by zero) is modelled by returning `none`; a normal
return of `(HostPriority, error)` is modelled by `some` of a
`PriorityResult` that is either `ok` (nil error) or `err` (non-nil
error, zero-valued `HostPriority` discarded).
-/

namespace KubeScheduler

/-- A resource quantity, held exactly in milli-units (the finest
granularity the scorers inspect).  `milliValue` is the exact
milli-unit amount; `value` rounds up to whole units, as
`resource.Quantity.Value()` does. -/
structure Quantity where
  milli : Int
deriving Repr, DecidableEq

def Quantity.milliValue (q : Quantity) : Int := q.milli

def Quantity.value (q : Quantity) : Int := -(Int.fdiv (-q.milli) 1000)

/-- A `v1.ResourceList`: a map from resource name to quantity,
modelled as an association list (first binding wins on lookup). -/
abbrev ResourceList := List (String × Quantity)

def resourceListGet (l : ResourceList) (r : String) : Option Quantity :=
  (l.find? (fun p => p.1 == r)).map (fun p => p.2)

structure ResourceRequirements where
  requests : ResourceList
  limits : ResourceList
deriving Repr, DecidableEq

structure Container where
  resources : ResourceRequirements
deriving Repr, DecidableEq

structure PodSpec where
  containers : List Container
  initContainers : List Container
deriving Repr, DecidableEq

structure Pod where
  spec : PodSpec
deriving Repr, DecidableEq

structure Node where
  name : String
deriving Repr, DecidableEq

/-- `schedulercache.Resource`: per-dimension totals kept by the node
cache.  `scalarResources` models the Go map (missing keys read as 0,
so it is a total function here). -/
structure Resource where
  milliCPU : Int
  memory : Int
  ephemeralStorage : Int
  scalarResources : String → Int

/-- `schedulercache.NodeInfo`: the per-node snapshot the scorers read. -/
structure NodeInfo where
  node : Option Node
  requestedResource : Resource
  allocatableResource : Resource
  pods : List Pod

structure HostPriority where
  host : String
  score : Int
deriving Repr, DecidableEq

/-- Outcome of one priority-map call: `ok` is a `HostPriority` with a
nil error, `err` a non-nil error (the accompanying zero-valued
`HostPriority` is dropped). -/
inductive PriorityResult where
  | ok : HostPriority → PriorityResult
  | err : String → PriorityResult
deriving Repr, DecidableEq

/-- Modelled from the spec: `schedulerapi.MaxPriority` is declared in a
package that is not among the sampled sources; the spec (and the test
file's scoring comments) fix it at 10. -/
def MaxPriority : Int := 10

/-- The per-container check inside `podRequestsResource`: some request
or limit entry for `resource` has a strictly positive milli-value. -/
def containerRequestsResource (resource : String) (container : Container) : Bool :=
  container.resources.requests.any (fun p => p.1 == resource && decide (0 < p.2.milliValue)) ||
  container.resources.limits.any (fun p => p.1 == resource && decide (0 < p.2.milliValue))

/-- `podRequestsResource` (identical in both source files): does any
container, init or regular, touch `resource` at all? -/
def podRequestsResource (pod : Pod) (resource : String) : Bool :=
  pod.spec.initContainers.any (fun c => containerRequestsResource resource c) ||
  pod.spec.containers.any (fun c => containerRequestsResource resource c)

/-- The request-accumulation loop shared by both scorers: starting
from `acc`, add `quantity.Value()` for every container whose requests
carry an entry for `resource`. -/
def addRequests (acc : Int) (containers : List Container) (resource : String) : Int :=
  containers.foldl
    (fun a c =>
      match resourceListGet c.resources.requests resource with
      | some q => a + q.value
      | none => a)
    acc

/-- The same loop started from zero (`reqResource := 0; for ... += ...`). -/
def sumRequests (containers : List Container) (resource : String) : Int :=
  addRequests 0 containers resource

namespace Generic

/-- The `used` selection inside the generic
`calculateScareResourceScore`: the if/else-if chain over the resource
name, falling through to the scalar-resource map. -/
def usedResourceFor (nodeInfo : NodeInfo) (resource : String) : Int :=
  if resource = "cpu" then nodeInfo.requestedResource.milliCPU
  else if resource = "storage" then nodeInfo.requestedResource.memory
  else if resource = "ephemeral-storage" then nodeInfo.requestedResource.ephemeralStorage
  else nodeInfo.requestedResource.scalarResources resource

/-- Generic `calculateScareResourceScore`: demand is the regular-sum,
replaced by the init-sum when the latter is larger; score is
`(used + demand) * MaxPriority / available` with Go (truncating)
division.  `none` models the runtime panic when `available = 0`. -/
def calculateScareResourceScore (nodeInfo : NodeInfo) (pod : Pod) (resource : String) : Option Int :=
  let usedResource := usedResourceFor nodeInfo resource
  let reqResource := sumRequests pod.spec.containers resource
  let reqResourceInit := sumRequests pod.spec.initContainers resource
  let reqResource := if reqResourceInit > reqResource then reqResourceInit else reqResource
  let available := nodeInfo.allocatableResource.scalarResources resource
  if available = 0 then none
  else some (((usedResource + reqResource) * MaxPriority).tdiv available)

/-- `ResourceBinPackingPriorityMap`: empty-resource check first, then
node-nil check, then the requests gate, then the score. -/
def ResourceBinPackingPriorityMap (resource : String) (pod : Pod) (nodeInfo : NodeInfo) :
    Option PriorityResult :=
  if resource.length = 0 then some (PriorityResult.err "resource not defined")
  else
    match nodeInfo.node with
    | none => some (PriorityResult.err "node not found")
    | some node =>
      if !podRequestsResource pod resource then
        some (PriorityResult.ok ⟨node.name, 0⟩)
      else
        (calculateScareResourceScore nodeInfo pod resource).map
          (fun s => PriorityResult.ok ⟨node.name, s⟩)

end Generic

namespace Scarce

/-- The `used` recomputation inside the scarce
`calculateScareResourceScore`: the double loop summing requests over
the bound pods' (regular) containers. -/
def usedResourceFor (nodeInfo : NodeInfo) (resource : String) : Int :=
  nodeInfo.pods.foldl (fun acc p => addRequests acc p.spec.containers resource) 0

/-- Scarce `calculateScareResourceScore`: demand is the sum over the
supplied containers only (the caller passes the pod's regular
containers; init containers are never consulted); `used` is recomputed
from the bound pods; `available` comes from the scalar-resource map.
`none` models the runtime panic when `available = 0`. -/
def calculateScareResourceScore (nodeInfo : NodeInfo) (containers : List Container) (resource : String) : Option Int :=
  let reqResource := sumRequests containers resource
  let usedResource := usedResourceFor nodeInfo resource
  let available := nodeInfo.allocatableResource.scalarResources resource
  if available = 0 then none
  else some (((usedResource + reqResource) * MaxPriority).tdiv available)

/-- `ScarceResourceBinPackingPriorityMap`: node-nil check, then the
requests gate, then the score over `pod.Spec.Containers`. -/
def ScarceResourceBinPackingPriorityMap (scarceResource : String) (pod : Pod) (nodeInfo : NodeInfo) :
    Option PriorityResult :=
  match nodeInfo.node with
  | none => some (PriorityResult.err "node not found")
  | some node =>
    if !podRequestsResource pod scarceResource then
      some (PriorityResult.ok ⟨node.name, 0⟩)
    else
      (calculateScareResourceScore nodeInfo pod.spec.containers scarceResource).map
        (fun s => PriorityResult.ok ⟨node.name, s⟩)

end Scarce

/-! ### Specification-side aggregation functions and basic lemmas -/

/-- The requested amount of `resource` a single container contributes
(0 when its requests carry no entry for `resource`). -/
def requestValue (container : Container) (resource : String) : Int :=
  match resourceListGet container.resources.requests resource with
  | some q => q.value
  | none => 0

/-- Sum of requested amounts of `resource` over a container list,
written as a map-then-sum (order-independent form). -/
def requestsSum (containers : List Container) (resource : String) : Int :=
  (containers.map (fun c => requestValue c resource)).sum

/-- The effective-demand aggregation exactly as the spec words it:
the maximum over the sum of regular-container requests and the largest
single init-container request. -/
def maxInitRequest (containers : List Container) (resource : String) : Int :=
  containers.foldl (fun acc c => max acc (requestValue c resource)) 0

def specEffectiveDemand (pod : Pod) (resource : String) : Int :=
  max (requestsSum pod.spec.containers resource)
    (maxInitRequest pod.spec.initContainers resource)

theorem addRequests_cons (acc : Int) (c : Container) (cs : List Container) (r : String) :
    addRequests acc (c :: cs) r = addRequests (acc + requestValue c r) cs r := by
  cases h : resourceListGet c.resources.requests r <;>
    simp [addRequests, requestValue, h]

theorem addRequests_eq (cs : List Container) (r : String) :
    ∀ acc : Int, addRequests acc cs r = acc + requestsSum cs r := by
  induction cs with
  | nil => intro acc; simp [addRequests, requestsSum]
  | cons c cs ih =>
    intro acc
    rw [addRequests_cons, ih]
    simp only [requestsSum, List.map_cons, List.sum_cons]
    ring

theorem sumRequests_eq (cs : List Container) (r : String) :
    sumRequests cs r = requestsSum cs r := by
  simpa [sumRequests] using addRequests_eq cs r 0

theorem foldl_addRequests (pods : List Pod) (r : String) :
    ∀ acc : Int, pods.foldl (fun a p => addRequests a p.spec.containers r) acc =
      acc + (pods.map (fun p => requestsSum p.spec.containers r)).sum := by
  induction pods with
  | nil => intro acc; simp
  | cons p pods ih =>
    intro acc
    rw [List.foldl_cons, ih, addRequests_eq, List.map_cons, List.sum_cons]
    ring

theorem scarceUsed_eq (ni : NodeInfo) (r : String) :
    Scarce.usedResourceFor ni r =
      (ni.pods.map (fun p => requestsSum p.spec.containers r)).sum := by
  simpa [Scarce.usedResourceFor] using foldl_addRequests ni.pods r 0

theorem ite_gt_eq_max (a b : Int) : (if b > a then b else a) = max a b := by
  rcases le_or_lt b a with h | h
  · rw [if_neg (not_lt.mpr h), max_eq_left h]
  · rw [if_pos h, max_eq_right h.le]

theorem length_ne_zero_of_ne_empty (r : String) (h : r ≠ "") : r.length ≠ 0 := by
  cases r with
  | mk data =>
    cases data with
    | nil => exact absurd rfl h
    | cons c cs => simp [String.length]

theorem tdiv_eq_fdiv_of_nonneg (a b : Int) (h1 : 0 ≤ a) (h2 : 0 ≤ b) :
    a.tdiv b = a.fdiv b := by
  rw [Int.tdiv_eq_ediv h1 h2, Int.fdiv_eq_ediv a h2]

/-! ### Concrete fixtures (resource and node shapes mirroring the test file) -/

def foo : String := "intel.com/foo"

/-- A container requesting `n` whole units of `foo`. -/
def rc (n : Int) : Container := ⟨⟨[(foo, ⟨1000 * n⟩)], []⟩⟩

def podNone : Pod := ⟨⟨[], []⟩⟩
def pod2 : Pod := ⟨⟨[rc 2], []⟩⟩
def pod3 : Pod := ⟨⟨[rc 3], []⟩⟩
def podInit6 : Pod := ⟨⟨[rc 1, rc 1], [rc 6]⟩⟩
def podInit33 : Pod := ⟨⟨[rc 1, rc 1], [rc 3, rc 3]⟩⟩

/-- A node snapshot with the given allocatable and already-requested
scalar totals for `foo` and the given bound pods. -/
def mkNI (alloc used : Int) (pods : List Pod) : NodeInfo :=
  ⟨some ⟨"machine1"⟩,
   ⟨0, 0, 0, fun r => if r == foo then used else 0⟩,
   ⟨0, 0, 0, fun r => if r == foo then alloc else 0⟩,
   pods⟩

/-- A node snapshot whose precomputed memory total (5) differs from
its scalar-map entry under the key "memory" (7). -/
def niMem : NodeInfo :=
  ⟨some ⟨"m"⟩,
   ⟨100, 5, 3, fun r => if r == "memory" then 7 else 0⟩,
   ⟨0, 0, 0, fun _ => 1⟩,
   []⟩

/-- A node snapshot with no resolvable node identity. -/
def niNoNode : NodeInfo :=
  ⟨none, ⟨0, 0, 0, fun _ => 0⟩, ⟨0, 0, 0, fun _ => 0⟩, []⟩

/-! ### Closed forms of the two score computations -/

/-- When `available ≠ 0`, the generic score call returns
`(used + max(regular-sum, init-sum)) * MaxPriority`, truncating-divided
by `available`. -/
theorem generic_score_some (ni : NodeInfo) (pod : Pod) (r : String)
    (hne : ni.allocatableResource.scalarResources r ≠ 0) :
    Generic.calculateScareResourceScore ni pod r =
      some (((Generic.usedResourceFor ni r +
          max (requestsSum pod.spec.containers r) (requestsSum pod.spec.initContainers r)) *
        MaxPriority).tdiv (ni.allocatableResource.scalarResources r)) := by
  simp only [Generic.calculateScareResourceScore, sumRequests_eq]
  rw [if_neg hne, ite_gt_eq_max]

/-- When `available ≠ 0`, the scarce score call returns
`(sum-over-bound-pods + regular-sum) * MaxPriority`, truncating-divided
by `available`. -/
theorem scarce_score_some (ni : NodeInfo) (cs : List Container) (r : String)
    (hne : ni.allocatableResource.scalarResources r ≠ 0) :
    Scarce.calculateScareResourceScore ni cs r =
      some (((Scarce.usedResourceFor ni r + requestsSum cs r) *
        MaxPriority).tdiv (ni.allocatableResource.scalarResources r)) := by
  simp only [Scarce.calculateScareResourceScore, sumRequests_eq]
  rw [if_neg hne]

/-- The shared scoring arithmetic is monotone in `used` for a positive
divisor and non-negative operands. -/
theorem tdiv_score_mono (u1 u2 d a : Int) (hu : 0 ≤ u1) (h12 : u1 ≤ u2)
    (hd : 0 ≤ d) (ha : 0 < a) :
    ((u1 + d) * MaxPriority).tdiv a ≤ ((u2 + d) * MaxPriority).tdiv a := by
  have hM : (0 : Int) ≤ MaxPriority := by norm_num [MaxPriority]
  have h1 : 0 ≤ (u1 + d) * MaxPriority := mul_nonneg (by linarith) hM
  have h2 : (u1 + d) * MaxPriority ≤ (u2 + d) * MaxPriority :=
    mul_le_mul_of_nonneg_right (by linarith) hM
  rw [Int.tdiv_eq_ediv h1 ha.le, Int.tdiv_eq_ediv (le_trans h1 h2) ha.le]
  exact Int.ediv_le_ediv ha h2

/-! ### Claim C1 -/

/-- C1, counterexample: the claim fails as stated for the generic
scorer configured with the empty resource name (a state the source
itself constructs, see `ResourceBinPackingPriorityDefault`).  On a
resolvable node and a pod that does not request the resource, the call
returns a misconfiguration error, not score 0 with no error. -/
theorem c1_counterexample :
    podRequestsResource podNone "" = false ∧
    (mkNI 4 0 []).node = some ⟨"machine1"⟩ ∧
    Generic.ResourceBinPackingPriorityMap "" podNone (mkNI 4 0 []) =
      some (PriorityResult.err "resource not defined") := by
  refine ⟨rfl, rfl, rfl⟩

/-- C1, amended: for every pod and node state with resolvable node
identity, if the pod does not request resource `r`
(`podRequestsResource` is false), the scarce scorer returns score 0
with no error for every `r`, and the generic scorer does so provided
its configured resource name is non-empty (an empty name yields a
misconfiguration error instead). -/
theorem c1_gate_zero_score (r : String) (pod : Pod) (ni : NodeInfo) (node : Node)
    (hnode : ni.node = some node) (hgate : podRequestsResource pod r = false) :
    (r ≠ "" →
      Generic.ResourceBinPackingPriorityMap r pod ni =
        some (PriorityResult.ok ⟨node.name, 0⟩)) ∧
    Scarce.ScarceResourceBinPackingPriorityMap r pod ni =
      some (PriorityResult.ok ⟨node.name, 0⟩) := by
  constructor
  · intro hr
    simp [Generic.ResourceBinPackingPriorityMap, length_ne_zero_of_ne_empty r hr,
      hnode, hgate]
  · simp [Scarce.ScarceResourceBinPackingPriorityMap, hnode, hgate]

/-- C1, witness: the amended theorem applied to a pod requesting
nothing on a node with allocatable 4. -/
theorem c1_witness :
    Generic.ResourceBinPackingPriorityMap foo podNone (mkNI 4 0 []) =
      some (PriorityResult.ok ⟨"machine1", 0⟩) ∧
    Scarce.ScarceResourceBinPackingPriorityMap foo podNone (mkNI 4 0 []) =
      some (PriorityResult.ok ⟨"machine1", 0⟩) := by
  have h := c1_gate_zero_score foo podNone (mkNI 4 0 []) ⟨"machine1"⟩ rfl (by decide)
  exact ⟨h.1 (by decide), h.2⟩

/-! ### Claim C7 -/

/-- C7, counterexample: when the node identity is unresolvable AND the
configured resource name is empty, the generic scorer reports the
misconfiguration error, not the node-not-found error — the
empty-resource check precedes the node-identity check in the source,
contrary to the claim's step ordering. -/
theorem c7_counterexample :
    niNoNode.node = none ∧
    Generic.ResourceBinPackingPriorityMap "" podNone niNoNode =
      some (PriorityResult.err "resource not defined") ∧
    PriorityResult.err "resource not defined" ≠ PriorityResult.err "node not found" := by
  refine ⟨rfl, rfl, by decide⟩

/-- C7, amended: for every pod and node state with unresolvable node
identity, the generic scorer fails with the node-not-found error
provided the configured resource name is non-empty; with an empty name
the misconfiguration check fires first. -/
theorem c7_node_not_found (r : String) (pod : Pod) (ni : NodeInfo)
    (hnode : ni.node = none) (hr : r ≠ "") :
    Generic.ResourceBinPackingPriorityMap r pod ni =
      some (PriorityResult.err "node not found") := by
  simp [Generic.ResourceBinPackingPriorityMap, length_ne_zero_of_ne_empty r hr, hnode]

/-- C7, witness: the amended theorem applied to a nameless node
snapshot with a non-empty resource name. -/
theorem c7_witness :
    Generic.ResourceBinPackingPriorityMap foo podNone niNoNode =
      some (PriorityResult.err "node not found") :=
  c7_node_not_found foo podNone niNoNode rfl (by decide)

/-! ### Claim C10 -/

/-- C10: the scarce scorer never returns a non-nil error when the node
identity resolves — for every resource name (the empty one included),
every pod and every such node state, the returned value is not an
`err`; it is either an `ok` result or (on zero allocatable) the
modelled division-by-zero panic, which is not an error return. -/
theorem c10_no_error_with_node (r : String) (pod : Pod) (ni : NodeInfo) (node : Node)
    (hnode : ni.node = some node) (e : String) :
    Scarce.ScarceResourceBinPackingPriorityMap r pod ni ≠
      some (PriorityResult.err e) := by
  simp only [Scarce.ScarceResourceBinPackingPriorityMap, hnode]
  cases hgate : podRequestsResource pod r with
  | false => simp
  | true =>
    cases hscore : Scarce.calculateScareResourceScore ni pod.spec.containers r with
    | none => simp [hscore]
    | some s => simp [hscore]

/-- C10, witness: the theorem applied with the empty scarce-resource
name on a resolvable node: no misconfiguration error is reported. -/
theorem c10_witness :
    Scarce.ScarceResourceBinPackingPriorityMap "" podNone (mkNI 4 0 []) ≠
      some (PriorityResult.err "resource not defined") :=
  c10_no_error_with_node "" podNone (mkNI 4 0 []) ⟨"machine1"⟩ rfl "resource not defined"

/-! ### Claim C2 -/

/-- C2, counterexample: the effective demand used in the score is NOT
`max(S, I)` with `I` the largest single init-container request.  For a
pod with two init containers requesting 3 each and two regular
containers requesting 1 each (`S = 2`, `max-init = 3`), the spec
formula gives demand 3, but the generic score on an empty node with
allocatable 10 is 6 (the code sums the init requests).  And for the
claim's own example pod (one init container requesting 6, two regular
requesting 1 each) the scarce scorer uses demand 2, not 6: it never
consults init containers. -/
theorem c2_counterexample :
    specEffectiveDemand podInit33 foo = 3 ∧
    Generic.calculateScareResourceScore (mkNI 10 0 []) podInit33 foo = some 6 ∧
    ((0 + specEffectiveDemand podInit33 foo) * MaxPriority).tdiv 10 = 3 ∧
    specEffectiveDemand podInit6 foo = 6 ∧
    Scarce.calculateScareResourceScore (mkNI 10 0 []) podInit6.spec.containers foo =
      some 2 ∧
    (6 : Int) ≠ 3 ∧ (2 : Int) ≠ 6 := by
  decide

/-- C2, amended: the effective demand used by the generic scorer is
`max(S, ΣI)` where `S` sums the regular-container requests and `ΣI`
sums (not maximizes over) the init-container requests; the scarce
scorer's effective demand is `S` alone, ignoring init containers
entirely. -/
theorem c2_effective_demand (pod : Pod) (r : String) (ni : NodeInfo)
    (hne : ni.allocatableResource.scalarResources r ≠ 0) :
    Generic.calculateScareResourceScore ni pod r =
      some (((Generic.usedResourceFor ni r +
          max (requestsSum pod.spec.containers r) (requestsSum pod.spec.initContainers r)) *
        MaxPriority).tdiv (ni.allocatableResource.scalarResources r)) ∧
    Scarce.calculateScareResourceScore ni pod.spec.containers r =
      some (((Scarce.usedResourceFor ni r + requestsSum pod.spec.containers r) *
        MaxPriority).tdiv (ni.allocatableResource.scalarResources r)) :=
  ⟨generic_score_some ni pod r hne, scarce_score_some ni pod.spec.containers r hne⟩

/-- C2, witness: the amended theorem applied to the two-init-container
pod on an empty node with allocatable 10 — the generic demand is 6
(sum of init requests), the scarce demand is 2. -/
theorem c2_witness :
    Generic.calculateScareResourceScore (mkNI 10 0 []) podInit33 foo = some 6 ∧
    Scarce.calculateScareResourceScore (mkNI 10 0 []) podInit33.spec.containers foo =
      some 2 := by
  have h := c2_effective_demand podInit33 foo (mkNI 10 0 []) (by decide)
  exact ⟨h.1.trans (by decide), h.2.trans (by decide)⟩

/-! ### Claim C3 -/

/-- C3: for every pod that requests resource `r` (with a non-empty,
properly configured name) and every resolvable node with positive
allocatable, both scorers return
`floor((used + demand) * MaxPriority / available)` with
`MaxPriority = 10` — stated with `Int.fdiv` (floor division), which
the non-negativity hypotheses make equal to the code's truncating
division. -/
theorem c3_score_formula (r : String) (pod : Pod) (ni : NodeInfo) (node : Node)
    (hnode : ni.node = some node) (hr : r ≠ "")
    (hgate : podRequestsResource pod r = true)
    (hpos : 0 < ni.allocatableResource.scalarResources r)
    (husedG : 0 ≤ Generic.usedResourceFor ni r)
    (husedS : 0 ≤ Scarce.usedResourceFor ni r)
    (hreq : 0 ≤ requestsSum pod.spec.containers r) :
    MaxPriority = 10 ∧
    Generic.ResourceBinPackingPriorityMap r pod ni =
      some (PriorityResult.ok ⟨node.name,
        ((Generic.usedResourceFor ni r +
            max (requestsSum pod.spec.containers r) (requestsSum pod.spec.initContainers r)) *
          MaxPriority).fdiv (ni.allocatableResource.scalarResources r)⟩) ∧
    Scarce.ScarceResourceBinPackingPriorityMap r pod ni =
      some (PriorityResult.ok ⟨node.name,
        ((Scarce.usedResourceFor ni r + requestsSum pod.spec.containers r) *
          MaxPriority).fdiv (ni.allocatableResource.scalarResources r)⟩) := by
  have hne : ni.allocatableResource.scalarResources r ≠ 0 := ne_of_gt hpos
  have hM : (0 : Int) ≤ MaxPriority := by norm_num [MaxPriority]
  have hG := generic_score_some ni pod r hne
  have hS := scarce_score_some ni pod.spec.containers r hne
  have hmax : 0 ≤ max (requestsSum pod.spec.containers r) (requestsSum pod.spec.initContainers r) :=
    le_max_of_le_left hreq
  have htfG := tdiv_eq_fdiv_of_nonneg
    ((Generic.usedResourceFor ni r +
        max (requestsSum pod.spec.containers r) (requestsSum pod.spec.initContainers r)) *
      MaxPriority)
    (ni.allocatableResource.scalarResources r)
    (mul_nonneg (by linarith) hM) hpos.le
  have htfS := tdiv_eq_fdiv_of_nonneg
    ((Scarce.usedResourceFor ni r + requestsSum pod.spec.containers r) * MaxPriority)
    (ni.allocatableResource.scalarResources r)
    (mul_nonneg (by linarith) hM) hpos.le
  refine ⟨rfl, ?_, ?_⟩
  · simp [Generic.ResourceBinPackingPriorityMap, length_ne_zero_of_ne_empty r hr,
      hnode, hgate, hG, htfG]
  · simp [Scarce.ScarceResourceBinPackingPriorityMap, hnode, hgate, hS, htfS]

/-- C3, witness: the claim's concrete scenario — a pod demanding 2
units with used 0 scores 2 on allocatable 8 and 5 on allocatable 4, in
both scorer variants on the latter. -/
theorem c3_witness :
    Generic.ResourceBinPackingPriorityMap foo pod2 (mkNI 8 0 []) =
      some (PriorityResult.ok ⟨"machine1", 2⟩) ∧
    Generic.ResourceBinPackingPriorityMap foo pod2 (mkNI 4 0 []) =
      some (PriorityResult.ok ⟨"machine1", 5⟩) ∧
    Scarce.ScarceResourceBinPackingPriorityMap foo pod2 (mkNI 4 0 []) =
      some (PriorityResult.ok ⟨"machine1", 5⟩) := by
  have h8 := c3_score_formula foo pod2 (mkNI 8 0 []) ⟨"machine1"⟩ rfl (by decide)
    (by decide) (by decide) (by decide) (by decide) (by decide)
  have h4 := c3_score_formula foo pod2 (mkNI 4 0 []) ⟨"machine1"⟩ rfl (by decide)
    (by decide) (by decide) (by decide) (by decide) (by decide)
  exact ⟨h8.2.1.trans (by decide), h4.2.1.trans (by decide), h4.2.2.trans (by decide)⟩

/-! ### Claim C4 -/

/-- C4: when the pod requests resource `r` and the node's allocatable
scalar quantity for `r` is 0, both scorer variants reach the unguarded
integer division with a zero divisor — modelled as `none`, the Go
runtime panic; there is no guard, no score-0 fallback and no typed
error on this path. -/
theorem c4_division_by_zero (r : String) (pod : Pod) (ni : NodeInfo) (node : Node)
    (hnode : ni.node = some node) (hr : r ≠ "")
    (hgate : podRequestsResource pod r = true)
    (hzero : ni.allocatableResource.scalarResources r = 0) :
    Generic.ResourceBinPackingPriorityMap r pod ni = none ∧
    Scarce.ScarceResourceBinPackingPriorityMap r pod ni = none := by
  constructor
  · simp [Generic.ResourceBinPackingPriorityMap, length_ne_zero_of_ne_empty r hr,
      hnode, hgate, Generic.calculateScareResourceScore, hzero]
  · simp [Scarce.ScarceResourceBinPackingPriorityMap, hnode, hgate,
      Scarce.calculateScareResourceScore, hzero]

/-- C4, witness: a pod requesting 2 units on a node with allocatable 0
panics in both variants. -/
theorem c4_witness :
    Generic.ResourceBinPackingPriorityMap foo pod2 (mkNI 0 0 []) = none ∧
    Scarce.ScarceResourceBinPackingPriorityMap foo pod2 (mkNI 0 0 []) = none :=
  c4_division_by_zero foo pod2 (mkNI 0 0 []) ⟨"machine1"⟩ rfl (by decide)
    (by decide) (by decide)

/-! ### Claim C5 -/

/-- C5, counterexample: the two variants are NOT behaviorally
identical even when the precomputed per-node requested total equals
the sum over the bound pods' containers (here both are 0 on an empty
node).  A pod with one init container requesting 6 and two regular
containers requesting 1 each scores 6 under the generic scorer but 2
under the scarce scorer (allocatable 10): the scarce variant ignores
init containers when computing demand. -/
theorem c5_counterexample :
    (mkNI 10 0 []).requestedResource.scalarResources foo =
      ((mkNI 10 0 []).pods.map (fun p => requestsSum p.spec.containers foo)).sum ∧
    Generic.ResourceBinPackingPriorityMap foo podInit6 (mkNI 10 0 []) =
      some (PriorityResult.ok ⟨"machine1", 6⟩) ∧
    Scarce.ScarceResourceBinPackingPriorityMap foo podInit6 (mkNI 10 0 []) =
      some (PriorityResult.ok ⟨"machine1", 2⟩) ∧
    Generic.ResourceBinPackingPriorityMap foo podInit6 (mkNI 10 0 []) ≠
      Scarce.ScarceResourceBinPackingPriorityMap foo podInit6 (mkNI 10 0 []) := by
  decide

/-- C5, amended: for a non-empty extended (non-built-in) resource
name, when the node's precomputed requested total for `r` equals the
sum of requests over the bound pods' containers AND the pod's summed
init-container requests do not exceed its summed regular-container
requests (so the init term cannot change the generic demand), the two
scorers return identical results on every node snapshot. -/
theorem c5_variants_agree (r : String) (pod : Pod) (ni : NodeInfo)
    (hr : r ≠ "") (hcpu : r ≠ "cpu") (hsto : r ≠ "storage")
    (heph : r ≠ "ephemeral-storage")
    (hused : ni.requestedResource.scalarResources r =
      (ni.pods.map (fun p => requestsSum p.spec.containers r)).sum)
    (hinit : requestsSum pod.spec.initContainers r ≤ requestsSum pod.spec.containers r) :
    Generic.ResourceBinPackingPriorityMap r pod ni =
      Scarce.ScarceResourceBinPackingPriorityMap r pod ni := by
  cases hnode : ni.node with
  | none =>
    simp [Generic.ResourceBinPackingPriorityMap, Scarce.ScarceResourceBinPackingPriorityMap,
      length_ne_zero_of_ne_empty r hr, hnode]
  | some node =>
    have husedeq : Generic.usedResourceFor ni r = Scarce.usedResourceFor ni r := by
      rw [Generic.usedResourceFor, if_neg hcpu, if_neg hsto, if_neg heph, hused,
        scarceUsed_eq]
    cases hgate : podRequestsResource pod r with
    | false =>
      simp [Generic.ResourceBinPackingPriorityMap,
        Scarce.ScarceResourceBinPackingPriorityMap,
        length_ne_zero_of_ne_empty r hr, hnode, hgate]
    | true =>
      by_cases hne : ni.allocatableResource.scalarResources r = 0
      · simp [Generic.ResourceBinPackingPriorityMap,
          Scarce.ScarceResourceBinPackingPriorityMap,
          length_ne_zero_of_ne_empty r hr, hnode, hgate,
          Generic.calculateScareResourceScore, Scarce.calculateScareResourceScore, hne]
      · have hG := generic_score_some ni pod r hne
        have hS := scarce_score_some ni pod.spec.containers r hne
        have hmax : max (requestsSum pod.spec.containers r)
            (requestsSum pod.spec.initContainers r) =
            requestsSum pod.spec.containers r := max_eq_left hinit
        simp [Generic.ResourceBinPackingPriorityMap,
          Scarce.ScarceResourceBinPackingPriorityMap,
          length_ne_zero_of_ne_empty r hr, hnode, hgate, hG, hS, hmax, husedeq]

/-- C5, witness: the amended theorem applied to a pod with only
regular containers on a node whose precomputed total (3) matches its
one bound pod's requests. -/
theorem c5_witness :
    Generic.ResourceBinPackingPriorityMap foo pod2 (mkNI 4 3 [pod3]) =
      Scarce.ScarceResourceBinPackingPriorityMap foo pod2 (mkNI 4 3 [pod3]) :=
  c5_variants_agree foo pod2 (mkNI 4 3 [pod3]) (by decide) (by decide) (by decide)
    (by decide) (by decide) (by decide)

/-! ### Claim C6 -/

/-- C6: the claim is right and the code is wrong.  On a node whose
precomputed requested-memory total is 5 but whose scalar-resource map
holds 7 under the key "memory", the generic scorer's `used` for the
memory dimension is 7 — the generic extended-resource lookup, not the
memory accessor.  The special-cased memory accessor is instead keyed
by the resource name "storage" (a slip: the branch reads the Memory
field but tests for "storage").  CPU and ephemeral-storage behave as
claimed. -/
theorem c6_memory_accessor_bug :
    Generic.usedResourceFor niMem "memory" = 7 ∧
    niMem.requestedResource.memory = 5 ∧
    Generic.usedResourceFor niMem "storage" = niMem.requestedResource.memory ∧
    Generic.usedResourceFor niMem "cpu" = niMem.requestedResource.milliCPU ∧
    Generic.usedResourceFor niMem "ephemeral-storage" =
      niMem.requestedResource.ephemeralStorage ∧
    (7 : Int) ≠ 5 := by
  decide

/-! ### Claim C8 -/

/-- C8: no upper clamp — with used 3, demand 2 and allocatable 4
(over-commit: `used + demand > available > 0`), both scorer variants
return 12, strictly above `MaxPriority = 10`. -/
theorem c8_no_upper_clamp :
    Generic.usedResourceFor (mkNI 4 3 []) foo = 3 ∧
    requestsSum pod2.spec.containers foo = 2 ∧
    (mkNI 4 3 []).allocatableResource.scalarResources foo = 4 ∧
    (3 : Int) + 2 > 4 ∧ (0 : Int) < 4 ∧
    Generic.ResourceBinPackingPriorityMap foo pod2 (mkNI 4 3 []) =
      some (PriorityResult.ok ⟨"machine1", 12⟩) ∧
    Scarce.ScarceResourceBinPackingPriorityMap foo pod2 (mkNI 4 0 [pod3]) =
      some (PriorityResult.ok ⟨"machine1", 12⟩) ∧
    MaxPriority < 12 := by
  decide

/-! ### Claim C9 -/

/-- C9: monotonicity in `used` — for a fixed pod (hence fixed demand)
and fixed positive allocatable, if one node state's `used` total is at
most another's (both non-negative, demand non-negative), the generic
score of the first is at most that of the second. -/
theorem c9_monotone_in_used (pod : Pod) (r : String) (ni1 ni2 : NodeInfo)
    (halloc : ni2.allocatableResource.scalarResources r =
      ni1.allocatableResource.scalarResources r)
    (hpos : 0 < ni1.allocatableResource.scalarResources r)
    (hu : 0 ≤ Generic.usedResourceFor ni1 r)
    (hle : Generic.usedResourceFor ni1 r ≤ Generic.usedResourceFor ni2 r)
    (hreq : 0 ≤ requestsSum pod.spec.containers r) :
    ∀ s1 s2, Generic.calculateScareResourceScore ni1 pod r = some s1 →
      Generic.calculateScareResourceScore ni2 pod r = some s2 → s1 ≤ s2 := by
  intro s1 s2 h1 h2
  have hne1 : ni1.allocatableResource.scalarResources r ≠ 0 := ne_of_gt hpos
  have hne2 : ni2.allocatableResource.scalarResources r ≠ 0 := by
    rw [halloc]; exact hne1
  rw [generic_score_some ni1 pod r hne1, Option.some.injEq] at h1
  rw [generic_score_some ni2 pod r hne2, Option.some.injEq, halloc] at h2
  subst h1
  subst h2
  exact tdiv_score_mono _ _ _ _ hu hle (le_max_of_le_left hreq) hpos

/-- C9, witness: with demand 2 and allocatable 4 fixed, raising `used`
from 0 to 3 raises the score from 5 to 12. -/
theorem c9_witness :
    Generic.calculateScareResourceScore (mkNI 4 0 []) pod2 foo = some 5 ∧
    Generic.calculateScareResourceScore (mkNI 4 3 []) pod2 foo = some 12 ∧
    (5 : Int) ≤ 12 := by
  refine ⟨by decide, by decide, ?_⟩
  exact c9_monotone_in_used pod2 foo (mkNI 4 0 []) (mkNI 4 3 []) rfl (by decide)
    (by decide) (by decide) (by decide) 5 12 (by decide) (by decide)

end KubeScheduler
